import Mathlib

/-!
Shallow embedding of the windowed generation controller of `VidMuse`
(`src/audiocraft/models/vidmuse.py`).

Modelling conventions:
* Python floats (`duration`, `extend_stride`, frame rates) are embedded as
  rationals; all the quantities the claims are about are exact in every run
  considered here, so no floating-point rounding is involved.
* Python `int(x)` is truncation toward zero (`pyInt`).
* A token tensor of shape `[B, K, T]` is manipulated by the controller only
  along its last (time) axis, so it is embedded as a `List τ` of its time
  steps; the batch and codebook axes are carried opaquely by the element
  type `τ`.  Likewise the 5-dimensional local video tensor is embedded as
  the `List α` of its time-axis frames (axis 2), the only axis the
  controller touches.
* The autoregressive decoder `lm.generate` lives outside `src/`; it is a
  parameter (`Dec`) of every definition, and decoder contracts appear as
  hypotheses of the theorems.
* Python slicing `x[k:]` / `x[:k]` with possibly negative `k` is embedded
  by `pyDrop` / `pyTake`.
* The `while` loop of `_generate_tokens` is embedded with a fuel parameter
  (`chunkLoop`); the wrapper `generateTokens` supplies `total_gen_len + 1`
  units of fuel, and the theorems prove this fuel is never exhausted in the
  runs they speak about.  Running out of fuel is reported as the distinct
  error `GenError.fuelOut`.
* Exceptions (failed `assert`, subscripting a non-tensor) are embedded with
  `Except` / an error component; mutations of the session object are made
  explicit by returning the post-call `Session`.
-/

namespace VidMuse

/-- Python `int()` on an exact rational: truncation toward zero.  Defined
through natural-number division so that it evaluates inside the kernel;
`pyInt_eq` below identifies it with `⌊q⌋` on nonnegative arguments and
`⌈q⌉` on negative ones. -/
def pyInt (q : ℚ) : ℤ :=
  if 0 ≤ q.num then (q.num.toNat / q.den : ℕ) else -(((-q.num).toNat / q.den : ℕ) : ℤ)

/-- Multiplication of exact rationals, written through `mkRat` so that it
evaluates inside the kernel; `pyMul_eq` below identifies it with `a * b`. -/
def pyMul (a b : ℚ) : ℚ := mkRat (a.num * b.num) (a.den * b.den)

/-- Subtraction of exact rationals, written through `mkRat` so that it
evaluates inside the kernel; `pySub_eq` below identifies it with `a - b`. -/
def pySub (a b : ℚ) : ℚ := mkRat (a.num * (b.den : ℤ) - b.num * (a.den : ℤ)) (a.den * b.den)

/-- The `frame_rate` property of the model: hardcoded `return 50` in the source. -/
def frame_rate : ℚ := 50

/-- The video frame rate: `self.fps = 2`, hardcoded in `_generate_tokens`. -/
def fpsConst : ℚ := 2

/-- Python `l[k:]` along the time axis, for a possibly negative `k`. -/
def pyDrop (k : ℤ) (l : List α) : List α :=
  if 0 ≤ k then l.drop k.toNat else l.drop (l.length - (-k).toNat)

/-- Python `l[:k]` along the time axis, for a possibly negative `k`. -/
def pyTake (k : ℤ) (l : List α) : List α :=
  if 0 ≤ k then l.take k.toNat else l.take (l.length - (-k).toNat)

/-- The sampling configuration stored by `set_generation_params` in
`self.generation_params` (the keys of the dict, in source order). -/
structure GenParams where
  use_sampling : Bool
  temp : ℚ
  top_k : ℕ
  top_p : ℚ
  cfg_coef : ℚ
  two_step_cfg : Bool
deriving DecidableEq

/-- The session-level mutable fields of a `VidMuse` object that the claims
are about.  `fps` is `none` until the attribute `self.fps` is first created
by the extension path of `_generate_tokens`. -/
structure Session where
  duration : ℚ
  extend_stride : ℚ
  max_duration : ℚ
  fps : Option ℚ
  generation_params : GenParams
deriving DecidableEq

/-- Errors raised by the embedded code paths. -/
inductive GenError where
  /-- The `assert extend_stride < self.max_duration` guard. -/
  | assertStride
  /-- The `assert max_prompt_len >= prompt_tokens.shape[-1]` guard. -/
  | promptTooLong
  /-- The `assert len(attributes)==2` guard of the extension loop. -/
  | attrLen
  /-- Subscripting `attributes[0][:,:,k,:,:]` when `attributes[0]` is a
  `ConditioningAttributes` record rather than a 5-dimensional tensor. -/
  | typeErr
  /-- Fuel exhaustion of the embedded while-loop. -/
  | fuelOut
deriving DecidableEq

/-- `set_generation_params`: the assert runs before any field assignment, so
on failure the session is returned unchanged together with the error. -/
def set_generation_params (s : Session) (use_sampling : Bool) (top_k : ℕ)
    (top_p : ℚ) (temperature : ℚ) (duration : ℚ) (cfg_coef : ℚ)
    (two_step_cfg : Bool) (extend_stride : ℚ) : Session × Option GenError :=
  if s.max_duration ≤ extend_stride then (s, some GenError.assertStride)
  else
    ({ s with
        extend_stride := extend_stride
        duration := duration
        generation_params :=
          ⟨use_sampling, temperature, top_k, top_p, cfg_coef, two_step_cfg⟩ },
      none)

/-- One element of the `attributes` list handed to `_generate_tokens`:
either a 5-dimensional video feature tensor (embedded by its time-axis
frames) or a `ConditioningAttributes` record.

Modelled from the spec: `ConditioningAttributes` (built by
`_prepare_tokens_and_attributes`, whose class lives outside `src/`) is a
plain record with text and wav fields; it supports neither `len`-2 tensor
slicing `[:,:,k,:,:]` nor `.shape`, so those operations on it raise. -/
inductive AttrElem (α : Type) where
  | video (frames : List α)
  | record
deriving DecidableEq

/-- The external autoregressive decoder `lm.generate`, as a function of the
arguments the controller passes it: prompt tokens, attributes and
`max_gen_len` (the sampling parameters are forwarded unchanged and do not
influence any claim, so they are left out of the oracle). -/
def Dec (τ α : Type) := Option (List τ) → List (AttrElem α) → ℤ → List τ

/-- Length of an optional prompt (`0` when the prompt is `None`). -/
def promptLen : Option (List τ) → ℕ
  | none => 0
  | some p => p.length

/-- The initial accumulated-chunks list of the extension loop: seeded with
the prompt when one exists (lines 376-380 of `vidmuse.py`). -/
def initTokens : Option (List τ) → List (List τ)
  | none => []
  | some p => [p]

/-- The decoder contract stated by the spec (section 4.3): the returned
token sequence has length `max_gen_len` plus the length of the supplied
prompt. -/
def specLenContract (dec : Dec τ α) : Prop :=
  ∀ p a L, (dec p a L).length = L.toNat + promptLen p

/-- The contract of the actual audiocraft LM: the returned token sequence
has total length `max_gen_len`, the supplied prompt counted inside it. -/
def totalLenContract (dec : Dec τ α) : Prop :=
  ∀ p a L, (dec p a L).length = L.toNat

/-- One decoder invocation, with the arguments passed and the value of
`current_gen_offset` at the moment of the call. -/
structure DecCall (τ α : Type) where
  prompt : Option (List τ)
  attrs : List (AttrElem α)
  max_gen_len : ℤ
  offsetAtCall : ℤ
deriving DecidableEq

/-- The ephemeral per-call state of the extension loop of
`_generate_tokens`, plus instrumentation (`iters`, `calls`) that records
what happened, for stating the claims. -/
structure LoopState (τ α : Type) where
  all_tokens : List (List τ)
  prompt_tokens : Option (List τ)
  prompt_length : ℕ
  attributes : List (AttrElem α)
  current_gen_offset : ℤ
  iters : ℕ
  calls : List (DecCall τ α)
deriving DecidableEq

/-- `chunk_duration = min(self.duration - time_offset, self.max_duration)`
with `time_offset = current_gen_offset / self.frame_rate` and
`self.max_duration = 30` (hardcoded at the top of `_generate_tokens`). -/
def chunkDuration (duration : ℚ) (o : ℤ) : ℚ :=
  min (pySub duration (mkRat o 50)) 30

/-- The body of the while-loop of `_generate_tokens` (lines 387-409 of
`vidmuse.py`), acting on one `LoopState`.  `S` is `stride_tokens`, `V` is
`stride_video_frames`.  The comparison bound `60` is
`self.max_duration * self.fps = 30 * 2`, with `max_duration` hardcoded to
`30` at the top of `_generate_tokens` and `fps` to `2` before the loop. -/
def chunkStep (dec : Dec τ α) (duration : ℚ) (S V : ℤ) (st : LoopState τ α) :
    Except GenError (LoopState τ α) :=
  let cd : ℚ := chunkDuration duration st.current_gen_offset
  let max_gen_len : ℤ := pyInt (pyMul cd frame_rate)
  match st.attributes with
  | [a0, a1] =>
    match a0 with
    | AttrElem.record => Except.error GenError.typeErr
    | AttrElem.video frames =>
      let localWindow : AttrElem α := AttrElem.video (pyTake (pyInt (pyMul cd fpsConst)) frames)
      let gen_tokens : List τ := dec st.prompt_tokens [localWindow, a1] max_gen_len
      let appended : List τ :=
        match st.prompt_tokens with
        | none => gen_tokens
        | some p => gen_tokens.drop p.length
      let newPrompt : List τ := pyDrop S gen_tokens
      let newFrames : List α :=
        if (frames.length : ℤ) - V < 60 then pyDrop (-60) frames
        else pyDrop V frames
      Except.ok
        { all_tokens := st.all_tokens ++ [appended]
          prompt_tokens := some newPrompt
          prompt_length := newPrompt.length
          attributes := [AttrElem.video newFrames, a1]
          current_gen_offset := st.current_gen_offset + S
          iters := st.iters + 1
          calls := st.calls ++ [⟨st.prompt_tokens, [localWindow, a1], max_gen_len, st.current_gen_offset⟩] }
  | _ => Except.error GenError.attrLen

/-- The while-loop `while current_gen_offset + prompt_length < total_gen_len`
of `_generate_tokens`, with fuel.  On an error inside the body the state
reached so far is kept alongside the error (the body raises, if at all,
before any of its state mutations). -/
def chunkLoop (dec : Dec τ α) (duration : ℚ) (S V T : ℤ) :
    ℕ → LoopState τ α → LoopState τ α × Option GenError
  | 0, st =>
    if st.current_gen_offset + (st.prompt_length : ℤ) < T then (st, some GenError.fuelOut)
    else (st, none)
  | fuel + 1, st =>
    if st.current_gen_offset + (st.prompt_length : ℤ) < T then
      match chunkStep dec duration S V st with
      | Except.error e => (st, some e)
      | Except.ok st' => chunkLoop dec duration S V T fuel st'
    else (st, none)

/-- `stride_tokens = int(self.frame_rate * self.extend_stride)`. -/
def strideTokens (es : ℚ) : ℤ := pyInt (pyMul frame_rate es)

/-- `stride_video_frames = int(self.fps * self.extend_stride)`. -/
def strideVideoFrames (es : ℚ) : ℤ := pyInt (pyMul fpsConst es)

/-- The Boolean value of the failing condition of
`assert max_prompt_len >= prompt_tokens.shape[-1]` (skipped when the prompt
is `None`). -/
def promptCheckFails (max_prompt_len : ℤ) : Option (List τ) → Bool
  | none => false
  | some p => max_prompt_len < (p.length : ℤ)

deriving instance DecidableEq for Except

/-- The outcome of one `_generate_tokens` call: the post-call session (the
function mutates `self.max_duration` and `self.fps`), the returned token
sequence or the exception raised, and instrumentation recording the decoder
invocations, the number of loop iterations, and which branch ran. -/
structure GenOutcome (τ α : Type) where
  session : Session
  result : Except GenError (List τ)
  calls : List (DecCall τ α)
  iters : ℕ
  tookChunkPath : Bool
deriving DecidableEq

/-- Shallow embedding of `_generate_tokens` (lines 327-412 of
`vidmuse.py`).  Field-by-field correspondence:
`self.max_duration = 30` is the session update at the top;
`total_gen_len = int(self.duration * self.frame_rate)`;
`max_prompt_len = int(min(self.duration, self.max_duration) * self.frame_rate)`;
then the prompt-length assert, the single-shot branch for
`duration <= max_duration`, and otherwise the stride asserts, `self.fps = 2`,
the stride computations and the chunk loop, whose result is concatenated
along the time axis (`List.flatten`). -/
def generateTokens (dec : Dec τ α) (s : Session) (attributes : List (AttrElem α))
    (prompt_tokens : Option (List τ)) : GenOutcome τ α :=
  let s1 : Session := { s with max_duration := 30 }
  let total_gen_len : ℤ := pyInt (pyMul s1.duration frame_rate)
  let max_prompt_len : ℤ := pyInt (pyMul (min s1.duration s1.max_duration) frame_rate)
  if promptCheckFails max_prompt_len prompt_tokens then
    { session := s1, result := Except.error GenError.promptTooLong,
      calls := [], iters := 0, tookChunkPath := false }
  else if s1.duration ≤ s1.max_duration then
    let gen : List τ := dec prompt_tokens attributes total_gen_len
    { session := s1, result := Except.ok gen,
      calls := [⟨prompt_tokens, attributes, total_gen_len, 0⟩],
      iters := 0, tookChunkPath := false }
  else if ¬ s1.extend_stride < s1.max_duration then
    { session := s1, result := Except.error GenError.assertStride,
      calls := [], iters := 0, tookChunkPath := true }
  else
    let s2 : Session := { s1 with fps := some 2 }
    let S : ℤ := strideTokens s1.extend_stride
    let V : ℤ := strideVideoFrames s1.extend_stride
    let st0 : LoopState τ α :=
      { all_tokens := initTokens prompt_tokens
        prompt_tokens := prompt_tokens
        prompt_length := promptLen prompt_tokens
        attributes := attributes
        current_gen_offset := 0
        iters := 0
        calls := [] }
    let r := chunkLoop dec s1.duration S V total_gen_len (total_gen_len.toNat + 1) st0
    { session := s2
      result :=
        match r.2 with
        | some e => Except.error e
        | none => Except.ok r.1.all_tokens.flatten
      calls := r.1.calls
      iters := r.1.iters
      tookChunkPath := true }

/-- `generate_unconditional` (lines 154-168): builds one
`ConditioningAttributes` record per requested sample through
`_prepare_tokens_and_attributes` and calls `_generate_tokens` with no
prompt. -/
def generate_unconditional (dec : Dec τ α) (s : Session) (num_samples : ℕ) :
    GenOutcome τ α :=
  generateTokens dec s (List.replicate num_samples AttrElem.record) none

/-- `generate_continuation` (lines 242-267): builds one
`ConditioningAttributes` record per prompt sample and calls
`_generate_tokens` with the encoded prompt.

Modelled from the spec: `compression_model.encode` (outside `src/`) maps
the prompt waveform to its token sequence; the embedding receives that
token sequence `encoded` directly. -/
def generate_continuation (dec : Dec τ α) (s : Session) (encoded : List τ)
    (num_samples : ℕ) : GenOutcome τ α :=
  generateTokens dec s (List.replicate num_samples AttrElem.record) (some encoded)

/-- Sum of the time lengths of a list of token chunks; the length of their
concatenation along the time axis. -/
def sumLens (l : List (List τ)) : ℕ := (l.map List.length).sum

/-- A generation call failed with no decoder invocation having been made. -/
def failedBeforeAnyCall (out : GenOutcome τ α) : Prop :=
  out.calls = [] ∧ ∃ e, out.result = Except.error e

/-- The decoder invocation performed by one iteration of the extension
loop, as a function of the loop state: the current prompt, the pair of the
sliced local window and the untouched global conditioning, and the chunk
token budget. -/
def chunkGen (dec : Dec τ α) (duration : ℚ) (st : LoopState τ α) (frames : List α)
    (a1 : AttrElem α) : List τ :=
  dec st.prompt_tokens
    [AttrElem.video
      (pyTake (pyInt (pyMul (chunkDuration duration st.current_gen_offset) fpsConst)) frames), a1]
    (pyInt (pyMul (chunkDuration duration st.current_gen_offset) frame_rate))

/-- The time length of the returned token sequence of a generation call,
when the call succeeded. -/
def resultLength (out : GenOutcome τ α) : Option ℕ :=
  match out.result with
  | Except.ok l => some l.length
  | Except.error _ => none

/-- Session fixture: the given duration and extension stride; the other
fields as a freshly constructed session holds them (`max_duration = 30`
from `get_pretrained`, the default sampling parameters, no `fps` attribute
yet). -/
def sessionFor (d es : ℚ) : Session :=
  { duration := d, extend_stride := es, max_duration := 30, fps := none,
    generation_params := ⟨true, 1, 250, 0, 3, false⟩ }

/-- Session fixture with a non-default `max_duration`, as produced by
constructing `VidMuse` directly with an explicit `max_duration` argument. -/
def sessionMaxDur (d es maxd : ℚ) : Session :=
  { duration := d, extend_stride := es, max_duration := maxd, fps := none,
    generation_params := ⟨true, 1, 250, 0, 3, false⟩ }

/-- Concrete decoder oracle obeying the length contract stated by the spec
(section 4.3): `max_gen_len` plus prompt-length tokens per call. -/
def decSpecLen : Dec Unit Unit := fun p _ L => List.replicate (L.toNat + promptLen p) ()

/-- Concrete decoder oracle obeying the length contract of the actual
audiocraft LM: `max_gen_len` tokens in total, the prompt counted inside. -/
def decTotalLen : Dec Unit Unit := fun _ _ L => List.replicate L.toNat ()

/-! Bridge lemmas identifying the kernel-computable arithmetic with the
standard rational operations, followed by unfolding lemmas for the loop. -/

theorem pyInt_eq (q : ℚ) : pyInt q = if 0 ≤ q then ⌊q⌋ else ⌈q⌉ := by
  unfold pyInt
  rcases le_or_lt 0 q.num with h | h
  · rw [if_pos h, if_pos (Rat.num_nonneg.mp h), Rat.floor_def]
    rw [Int.ofNat_tdiv, Int.toNat_of_nonneg h]
    exact Int.tdiv_eq_ediv h (by positivity)
  · have hq : ¬ 0 ≤ q := fun hq0 => absurd (Rat.num_nonneg.mpr hq0) (not_le.mpr h)
    rw [if_neg (not_le.mpr h), if_neg hq]
    have h1 : (0 : ℤ) ≤ -q.num := by omega
    have h2 : ⌊-q⌋ = (((-q.num).toNat / q.den : ℕ) : ℤ) := by
      rw [Rat.floor_def, Rat.neg_num, Rat.neg_den, Int.ofNat_tdiv, Int.toNat_of_nonneg h1]
      exact (Int.tdiv_eq_ediv h1 (by positivity)).symm
    have h3 : ⌈q⌉ = -⌊-q⌋ := by rw [Int.floor_neg]; ring
    rw [h3, h2]

theorem mkRat_eq_div (n : ℤ) (d : ℕ) : (mkRat n d : ℚ) = (n : ℚ) / (d : ℚ) := by
  rw [Rat.mkRat_eq_divInt, Rat.divInt_eq_div]
  norm_num

theorem pyMul_eq (a b : ℚ) : pyMul a b = a * b := by
  rw [pyMul, mkRat_eq_div]
  conv_rhs => rw [← Rat.num_div_den a, ← Rat.num_div_den b]
  rw [div_mul_div_comm]
  push_cast
  ring

theorem pySub_eq (a b : ℚ) : pySub a b = a - b := by
  have ha : ((a.den : ℚ)) ≠ 0 := Nat.cast_ne_zero.mpr a.den_nz
  have hb : ((b.den : ℚ)) ≠ 0 := Nat.cast_ne_zero.mpr b.den_nz
  rw [pySub, mkRat_eq_div]
  conv_rhs => rw [← Rat.num_div_den a, ← Rat.num_div_den b]
  rw [div_sub_div _ _ ha hb]
  push_cast
  ring

theorem pyInt_intCast (k : ℤ) : pyInt ((k : ℚ)) = k := by
  rw [pyInt_eq]
  split
  · exact Int.floor_intCast k
  · exact Int.ceil_intCast k

theorem pyInt_natCast (n : ℕ) : pyInt ((n : ℚ)) = n := by
  have h : ((n : ℚ)) = (((n : ℤ) : ℚ)) := by push_cast; ring
  rw [h, pyInt_intCast]

@[simp] theorem promptLen_none : promptLen (none : Option (List τ)) = 0 := rfl

@[simp] theorem promptLen_some (p : List τ) : promptLen (some p) = p.length := rfl

theorem pyDrop_of_nonneg {k : ℤ} (h : 0 ≤ k) (l : List α) :
    pyDrop k l = l.drop k.toNat := if_pos h

theorem pyDrop_neg_sixty (l : List α) : pyDrop (-60) l = l.drop (l.length - 60) := by
  rw [pyDrop, if_neg (by norm_num)]
  simp

theorem total_len_eq (duration : ℚ) (T : ℤ) (hdur : duration * frame_rate = (T : ℚ)) :
    pyInt (pyMul duration frame_rate) = T := by
  rw [pyMul_eq, hdur, pyInt_intCast]

theorem budget_eq_1500 (duration : ℚ) (h : (30 : ℚ) ≤ duration) :
    pyInt (pyMul (min duration 30) frame_rate) = 1500 := by
  rw [pyMul_eq, min_eq_right h]
  have h2 : (30 : ℚ) * frame_rate = ((1500 : ℤ) : ℚ) := by
    rw [show frame_rate = (50 : ℚ) from rfl]; norm_num
  rw [h2, pyInt_intCast]

theorem chunk_max_gen_len (duration : ℚ) (T o : ℤ)
    (hdur : duration * frame_rate = (T : ℚ)) :
    pyInt (pyMul (chunkDuration duration o) frame_rate) = min (T - o) 1500 := by
  have hfr : frame_rate = (50 : ℚ) := rfl
  have key : pyMul (chunkDuration duration o) frame_rate = ((min (T - o) 1500 : ℤ) : ℚ) := by
    rw [pyMul_eq, chunkDuration, pySub_eq, mkRat_eq_div, hfr]
    push_cast
    rw [min_mul_of_nonneg _ _ (by norm_num : (0 : ℚ) ≤ 50)]
    congr 1
    · rw [sub_mul, div_mul_cancel₀ _ (by norm_num : (50 : ℚ) ≠ 0)]
      rw [hfr] at hdur
      rw [hdur]
    · norm_num
  rw [key, pyInt_intCast]

theorem strideTokens_lt_1500 {es : ℚ} (hes : es < 30) (hS : 1 ≤ strideTokens es) :
    strideTokens es < 1500 := by
  have h : strideTokens es = pyInt (50 * es) := by
    rw [strideTokens, pyMul_eq, show frame_rate = (50 : ℚ) from rfl]
  by_cases h0 : (0 : ℚ) ≤ 50 * es
  · rw [h, pyInt_eq, if_pos h0]
    exact Int.floor_lt.mpr (by push_cast; linarith)
  · exfalso
    have hc : strideTokens es ≤ 0 := by
      rw [h, pyInt_eq, if_neg h0]
      exact Int.ceil_le.mpr (by push_cast; linarith [not_le.mp h0])
    omega

theorem chunkStep_video (dec : Dec τ α) (duration : ℚ) (S V : ℤ) (st : LoopState τ α)
    (frames : List α) (a1 : AttrElem α)
    (h : st.attributes = [AttrElem.video frames, a1]) :
    chunkStep dec duration S V st =
      Except.ok
        { all_tokens := st.all_tokens ++
            [match st.prompt_tokens with
             | none => chunkGen dec duration st frames a1
             | some p => (chunkGen dec duration st frames a1).drop p.length]
          prompt_tokens := some (pyDrop S (chunkGen dec duration st frames a1))
          prompt_length := (pyDrop S (chunkGen dec duration st frames a1)).length
          attributes := [AttrElem.video
            (if (frames.length : ℤ) - V < 60 then pyDrop (-60) frames
             else pyDrop V frames), a1]
          current_gen_offset := st.current_gen_offset + S
          iters := st.iters + 1
          calls := st.calls ++ [⟨st.prompt_tokens,
            [AttrElem.video
              (pyTake (pyInt (pyMul (chunkDuration duration st.current_gen_offset) fpsConst)) frames), a1],
            pyInt (pyMul (chunkDuration duration st.current_gen_offset) frame_rate),
            st.current_gen_offset⟩] } := by
  obtain ⟨atoks, pt, pl, attrs, o, it, cs⟩ := st
  simp only at h
  subst h
  rfl

theorem chunkLoop_stop (dec : Dec τ α) (duration : ℚ) (S V T : ℤ) (fuel : ℕ)
    (st : LoopState τ α) (h : ¬ st.current_gen_offset + (st.prompt_length : ℤ) < T) :
    chunkLoop dec duration S V T fuel st = (st, none) := by
  cases fuel <;> simp [chunkLoop, h]

theorem chunkLoop_cont (dec : Dec τ α) (duration : ℚ) (S V T : ℤ) (fuel : ℕ)
    (st st' : LoopState τ α) (h : st.current_gen_offset + (st.prompt_length : ℤ) < T)
    (hstep : chunkStep dec duration S V st = Except.ok st') (hf : fuel ≠ 0) :
    chunkLoop dec duration S V T fuel st = chunkLoop dec duration S V T (fuel - 1) st' := by
  cases fuel with
  | zero => exact absurd rfl hf
  | succ n => simp [chunkLoop, h, hstep]

theorem chunkLoop_fail (dec : Dec τ α) (duration : ℚ) (S V T : ℤ) (fuel : ℕ)
    (st : LoopState τ α) (e : GenError)
    (h : st.current_gen_offset + (st.prompt_length : ℤ) < T)
    (hstep : chunkStep dec duration S V st = Except.error e) (hf : fuel ≠ 0) :
    chunkLoop dec duration S V T fuel st = (st, some e) := by
  cases fuel with
  | zero => exact absurd rfl hf
  | succ n => simp [chunkLoop, h, hstep]

theorem generateTokens_promptFail (dec : Dec τ α) (s : Session)
    (attrs : List (AttrElem α)) (prompt : Option (List τ))
    (hp : promptCheckFails (pyInt (pyMul (min s.duration 30) frame_rate)) prompt = true) :
    generateTokens dec s attrs prompt =
      { session := { s with max_duration := 30 },
        result := Except.error GenError.promptTooLong,
        calls := [], iters := 0, tookChunkPath := false } := by
  simp [generateTokens, hp]

theorem generateTokens_single (dec : Dec τ α) (s : Session)
    (attrs : List (AttrElem α)) (prompt : Option (List τ))
    (hp : promptCheckFails (pyInt (pyMul (min s.duration 30) frame_rate)) prompt = false)
    (hd : s.duration ≤ 30) :
    generateTokens dec s attrs prompt =
      { session := { s with max_duration := 30 },
        result := Except.ok (dec prompt attrs (pyInt (pyMul s.duration frame_rate))),
        calls := [⟨prompt, attrs, pyInt (pyMul s.duration frame_rate), 0⟩],
        iters := 0, tookChunkPath := false } := by
  rw [min_eq_left hd] at hp
  simp [generateTokens, hp, hd]

theorem generateTokens_strideFail (dec : Dec τ α) (s : Session)
    (attrs : List (AttrElem α)) (prompt : Option (List τ))
    (hp : promptCheckFails (pyInt (pyMul (min s.duration 30) frame_rate)) prompt = false)
    (hd : ¬ s.duration ≤ 30) (hes : ¬ s.extend_stride < 30) :
    generateTokens dec s attrs prompt =
      { session := { s with max_duration := 30 },
        result := Except.error GenError.assertStride,
        calls := [], iters := 0, tookChunkPath := true } := by
  simp [generateTokens, hp, hd, hes]

theorem generateTokens_chunk (dec : Dec τ α) (s : Session)
    (attrs : List (AttrElem α)) (prompt : Option (List τ))
    (hp : promptCheckFails (pyInt (pyMul (min s.duration 30) frame_rate)) prompt = false)
    (hd : ¬ s.duration ≤ 30) (hes : s.extend_stride < 30) :
    generateTokens dec s attrs prompt =
      (let T : ℤ := pyInt (pyMul s.duration frame_rate)
       let r := chunkLoop dec s.duration (strideTokens s.extend_stride)
          (strideVideoFrames s.extend_stride) T (T.toNat + 1)
          { all_tokens := initTokens prompt
            prompt_tokens := prompt
            prompt_length := promptLen prompt
            attributes := attrs
            current_gen_offset := 0
            iters := 0
            calls := [] }
       { session := { s with max_duration := 30, fps := some 2 }
         result :=
           match r.2 with
           | some e => Except.error e
           | none => Except.ok r.1.all_tokens.flatten
         calls := r.1.calls
         iters := r.1.iters
         tookChunkPath := true }) := by
  cases prompt <;> simp [generateTokens, hp, hd, hes]

theorem sumLens_append (l : List (List τ)) (x : List τ) :
    sumLens (l ++ [x]) = sumLens l + x.length := by
  simp [sumLens]

theorem chunkLoop_length (dec : Dec τ α) (hdec : totalLenContract dec)
    (duration : ℚ) (S V T : ℤ)
    (hdur : duration * frame_rate = (T : ℚ)) (hS : 1 ≤ S) (hSlt : S < 1500) :
    ∀ fuel : ℕ, ∀ st : LoopState τ α, ∀ frames : List α, ∀ a1 : AttrElem α,
      st.attributes = [AttrElem.video frames, a1] →
      st.prompt_length = promptLen st.prompt_tokens →
      0 ≤ st.current_gen_offset →
      (st.current_gen_offset + (st.prompt_length : ℤ) < T →
        ((sumLens st.all_tokens : ℤ) = st.current_gen_offset + st.prompt_length ∧
          (st.prompt_length : ℤ) ≤ 1500)) →
      (T ≤ st.current_gen_offset + (st.prompt_length : ℤ) →
        (sumLens st.all_tokens : ℤ) = T) →
      T ≤ st.current_gen_offset + fuel →
      (chunkLoop dec duration S V T fuel st).2 = none ∧
        (sumLens (chunkLoop dec duration S V T fuel st).1.all_tokens : ℤ) = T := by
  intro fuel
  induction fuel with
  | zero =>
    intro st frames a1 hattrs hpl ho hinv1 hinv2 hfuel
    have hstop : ¬ st.current_gen_offset + (st.prompt_length : ℤ) < T := by
      push_cast at hfuel
      omega
    rw [chunkLoop_stop dec duration S V T 0 st hstop]
    exact ⟨rfl, hinv2 (not_lt.mp hstop)⟩
  | succ n ih =>
    intro st frames a1 hattrs hpl ho hinv1 hinv2 hfuel
    by_cases hc : st.current_gen_offset + (st.prompt_length : ℤ) < T
    case neg =>
      rw [chunkLoop_stop dec duration S V T _ st hc]
      exact ⟨rfl, hinv2 (not_lt.mp hc)⟩
    case pos =>
      obtain ⟨hA, hple⟩ := hinv1 hc
      obtain ⟨M, hMdef⟩ : ∃ M : ℤ, M = min (T - st.current_gen_offset) 1500 := ⟨_, rfl⟩
      have hM1 : M ≤ T - st.current_gen_offset := hMdef ▸ min_le_left _ _
      have hM2 : M ≤ 1500 := hMdef ▸ min_le_right _ _
      have hM3 : M = T - st.current_gen_offset ∨ M = 1500 := hMdef ▸ min_choice _ _
      have hG : ((chunkGen dec duration st frames a1).length : ℤ) = M := by
        rw [chunkGen, hdec, chunk_max_gen_len duration T st.current_gen_offset hdur, ← hMdef]
        refine Int.toNat_of_nonneg ?_
        rcases hM3 with h | h <;> omega
      have hS0 : (0 : ℤ) ≤ S := by omega
      have hSnat : ((S.toNat : ℕ) : ℤ) = S := Int.toNat_of_nonneg hS0
      have hpd : (pyDrop S (chunkGen dec duration st frames a1)).length
          = (chunkGen dec duration st frames a1).length - S.toNat := by
        rw [pyDrop_of_nonneg hS0, List.length_drop]
      rcases hpt : st.prompt_tokens with _ | p
      · rw [hpt] at hpl
        simp only [promptLen_none] at hpl
        have hstep := chunkStep_video dec duration S V st frames a1 hattrs
        rw [hpt] at hstep
        rw [chunkLoop_cont dec duration S V T (n + 1) st _ hc hstep (Nat.succ_ne_zero n),
          Nat.add_sub_cancel]
        refine ih _ _ a1 rfl ?_ ?_ ?_ ?_ ?_
        · simp
        · simp only []
          omega
        · intro hlt
          simp only [sumLens_append, hpd] at hlt ⊢
          constructor
          · push_cast
            rcases hM3 with h | h <;> omega
          · rcases hM3 with h | h <;> omega
        · intro hge
          simp only [sumLens_append, hpd] at hge ⊢
          push_cast
          rcases hM3 with h | h <;> omega
        · simp only []
          omega
      · rw [hpt] at hpl
        simp only [promptLen_some] at hpl
        have hstep := chunkStep_video dec duration S V st frames a1 hattrs
        rw [hpt] at hstep
        simp only [] at hstep
        rw [chunkLoop_cont dec duration S V T (n + 1) st _ hc hstep (Nat.succ_ne_zero n),
          Nat.add_sub_cancel]
        refine ih _ _ a1 rfl ?_ ?_ ?_ ?_ ?_
        · simp
        · simp only []
          omega
        · intro hlt
          simp only [sumLens_append, hpd, List.length_drop] at hlt ⊢
          constructor
          · push_cast
            rcases hM3 with h | h <;> omega
          · rcases hM3 with h | h <;> omega
        · intro hge
          simp only [sumLens_append, hpd, List.length_drop] at hge ⊢
          push_cast
          rcases hM3 with h | h <;> omega
        · simp only []
          omega

theorem chunkLoop_fst_zero (dec : Dec τ α) (duration : ℚ) (S V T : ℤ)
    (st : LoopState τ α) : (chunkLoop dec duration S V T 0 st).1 = st := by
  by_cases h : st.current_gen_offset + (st.prompt_length : ℤ) < T <;> simp [chunkLoop, h]

theorem chunkLoop_error_calls (dec : Dec τ α) (duration : ℚ) (S V T : ℤ) :
    ∀ fuel : ℕ, ∀ st : LoopState τ α, ∀ frames : List α, ∀ a1 : AttrElem α,
      st.attributes = [AttrElem.video frames, a1] →
      ∀ e : GenError, (chunkLoop dec duration S V T fuel st).2 = some e →
      st.calls.length + fuel ≤ (chunkLoop dec duration S V T fuel st).1.calls.length := by
  intro fuel
  induction fuel with
  | zero =>
    intro st frames a1 hattrs e he
    rw [chunkLoop_fst_zero]
    omega
  | succ n ih =>
    intro st frames a1 hattrs e he
    by_cases hc : st.current_gen_offset + (st.prompt_length : ℤ) < T
    · have hstep := chunkStep_video dec duration S V st frames a1 hattrs
      rw [chunkLoop_cont dec duration S V T (n + 1) st _ hc hstep (Nat.succ_ne_zero n),
        Nat.add_sub_cancel] at he ⊢
      have hrec := ih _ _ a1 rfl e he
      simp only [List.length_append, List.length_cons, List.length_nil] at hrec
      omega
    · rw [chunkLoop_stop dec duration S V T _ st hc] at he
      exact absurd he (by simp)

theorem chunkStep_records (dec : Dec τ α) (duration : ℚ) (S V : ℤ) (st : LoopState τ α)
    (num : ℕ) (hattrs : st.attributes = List.replicate num AttrElem.record) :
    ∃ e : GenError, chunkStep dec duration S V st = Except.error e := by
  obtain ⟨atoks, pt, pl, attrs, o, it, cs⟩ := st
  simp only at hattrs
  subst hattrs
  match num with
  | 0 => exact ⟨GenError.attrLen, rfl⟩
  | 1 => exact ⟨GenError.attrLen, rfl⟩
  | 2 => exact ⟨GenError.typeErr, rfl⟩
  | (n + 3) => exact ⟨GenError.attrLen, rfl⟩

theorem chunkLoop_offsets (dec : Dec τ α) (duration : ℚ) (S V T : ℤ) (hS : 1 ≤ S) :
    ∀ fuel : ℕ, ∀ st : LoopState τ α, ∀ frames : List α, ∀ a1 : AttrElem α,
      st.attributes = [AttrElem.video frames, a1] →
      st.current_gen_offset = (st.iters : ℤ) * S →
      st.calls.map (fun c => c.offsetAtCall)
        = (List.range st.iters).map (fun k : ℕ => (k : ℤ) * S) →
      T ≤ st.current_gen_offset + fuel →
      (chunkLoop dec duration S V T fuel st).2 = none ∧
        (chunkLoop dec duration S V T fuel st).1.current_gen_offset
          = ((chunkLoop dec duration S V T fuel st).1.iters : ℤ) * S ∧
        (chunkLoop dec duration S V T fuel st).1.calls.map (fun c => c.offsetAtCall)
          = (List.range (chunkLoop dec duration S V T fuel st).1.iters).map
              (fun k : ℕ => (k : ℤ) * S) ∧
        ((chunkLoop dec duration S V T fuel st).1.iters = st.iters ∨
          (((chunkLoop dec duration S V T fuel st).1.iters : ℤ) - 1) * S < T) := by
  intro fuel
  induction fuel with
  | zero =>
    intro st frames a1 hattrs hoff hcalls hfuel
    have hstop : ¬ st.current_gen_offset + (st.prompt_length : ℤ) < T := by
      push_cast at hfuel
      omega
    rw [chunkLoop_stop dec duration S V T 0 st hstop]
    exact ⟨rfl, hoff, hcalls, Or.inl rfl⟩
  | succ n ih =>
    intro st frames a1 hattrs hoff hcalls hfuel
    by_cases hc : st.current_gen_offset + (st.prompt_length : ℤ) < T
    case neg =>
      rw [chunkLoop_stop dec duration S V T _ st hc]
      exact ⟨rfl, hoff, hcalls, Or.inl rfl⟩
    case pos =>
      have hstep := chunkStep_video dec duration S V st frames a1 hattrs
      have holt : st.current_gen_offset < T := by
        have hnn : (0 : ℤ) ≤ (st.prompt_length : ℤ) := by positivity
        omega
      have hrec := ih
        { all_tokens := st.all_tokens ++
            [match st.prompt_tokens with
             | none => chunkGen dec duration st frames a1
             | some p => (chunkGen dec duration st frames a1).drop p.length]
          prompt_tokens := some (pyDrop S (chunkGen dec duration st frames a1))
          prompt_length := (pyDrop S (chunkGen dec duration st frames a1)).length
          attributes := [AttrElem.video
            (if (frames.length : ℤ) - V < 60 then pyDrop (-60) frames
             else pyDrop V frames), a1]
          current_gen_offset := st.current_gen_offset + S
          iters := st.iters + 1
          calls := st.calls ++ [⟨st.prompt_tokens,
            [AttrElem.video
              (pyTake (pyInt (pyMul (chunkDuration duration st.current_gen_offset) fpsConst)) frames), a1],
            pyInt (pyMul (chunkDuration duration st.current_gen_offset) frame_rate),
            st.current_gen_offset⟩] }
        (if (frames.length : ℤ) - V < 60 then pyDrop (-60) frames else pyDrop V frames)
        a1 rfl
        (by simp only []; push_cast; rw [hoff]; ring)
        (by
          simp only [List.map_append, hcalls, List.range_succ, List.map_cons, List.map_nil]
          rw [hoff])
        (by simp only []; omega)
      rw [chunkLoop_cont dec duration S V T (n + 1) st _ hc hstep (Nat.succ_ne_zero n),
        Nat.add_sub_cancel]
      refine ⟨hrec.1, hrec.2.1, hrec.2.2.1, ?_⟩
      rcases hrec.2.2.2 with h | h
      · right
        rw [h]
        show (((st.iters + 1 : ℕ) : ℤ) - 1) * S < T
        push_cast
        rw [add_sub_cancel_right, ← hoff]
        exact holt
      · exact Or.inr h

theorem pyTake_nil (k : ℤ) : pyTake k ([] : List α) = [] := by
  unfold pyTake
  split <;> simp

theorem pyDrop_nil (k : ℤ) : pyDrop k ([] : List α) = [] := by
  unfold pyDrop
  split <;> simp

theorem total_ge_1500 (duration : ℚ) (hd : (30 : ℚ) < duration) :
    1500 ≤ pyInt (pyMul duration frame_rate) := by
  rw [pyMul_eq, show frame_rate = (50 : ℚ) from rfl, pyInt_eq, if_pos (by linarith)]
  refine Int.le_floor.mpr ?_
  push_cast
  linarith

theorem chunk_no_precall_failure (dec : Dec τ α) (s : Session) (frames : List α)
    (a1 : AttrElem α) (prompt : Option (List τ))
    (hp : promptCheckFails (pyInt (pyMul (min s.duration 30) frame_rate)) prompt = false)
    (hd : ¬ s.duration ≤ 30) (hes : s.extend_stride < 30) :
    ¬ failedBeforeAnyCall (generateTokens dec s [AttrElem.video frames, a1] prompt) := by
  rw [generateTokens_chunk dec s _ prompt hp hd hes]
  rintro ⟨hcalls, e, hres⟩
  simp only [] at hres hcalls
  generalize hX : chunkLoop dec s.duration (strideTokens s.extend_stride)
      (strideVideoFrames s.extend_stride) (pyInt (pyMul s.duration frame_rate))
      ((pyInt (pyMul s.duration frame_rate)).toNat + 1)
      { all_tokens := initTokens prompt
        prompt_tokens := prompt
        prompt_length := promptLen prompt
        attributes := [AttrElem.video frames, a1]
        current_gen_offset := 0
        iters := 0
        calls := [] } = X at hres hcalls
  rcases hX2 : X.2 with _ | e'
  · rw [hX2] at hres
    simp at hres
  · have hlen := chunkLoop_error_calls dec s.duration (strideTokens s.extend_stride)
      (strideVideoFrames s.extend_stride) (pyInt (pyMul s.duration frame_rate))
      ((pyInt (pyMul s.duration frame_rate)).toNat + 1)
      { all_tokens := initTokens prompt
        prompt_tokens := prompt
        prompt_length := promptLen prompt
        attributes := [AttrElem.video frames, a1]
        current_gen_offset := 0
        iters := 0
        calls := [] } frames a1 rfl e' (by rw [hX, hX2])
    rw [hX] at hlen
    rw [hcalls] at hlen
    simp at hlen

/-! The claims. -/

/-- C2 (confirmed): for every call whose duration is at most the decoder
max context (30 s, the value `_generate_tokens` itself installs in
`max_duration` at entry) and whose prompt passes the length assert,
`_generate_tokens` issues exactly one decoder call with
`max_gen_len = int(duration * frame_rate)`, passing the prompt tokens and
the attributes unchanged, returns that decoder output directly, and never
takes the chunking branch. -/
theorem single_shot_direct (dec : Dec τ α) (s : Session) (attrs : List (AttrElem α))
    (prompt : Option (List τ))
    (hd : s.duration ≤ 30)
    (hp : promptCheckFails (pyInt (pyMul (min s.duration 30) frame_rate)) prompt = false) :
    (generateTokens dec s attrs prompt).result
        = Except.ok (dec prompt attrs (pyInt (pyMul s.duration frame_rate))) ∧
      (generateTokens dec s attrs prompt).calls
        = [⟨prompt, attrs, pyInt (pyMul s.duration frame_rate), 0⟩] ∧
      (generateTokens dec s attrs prompt).tookChunkPath = false := by
  rw [generateTokens_single dec s attrs prompt hp hd]
  exact ⟨rfl, rfl, rfl⟩

/-- C2 witness: duration 15, stride 29.5, no prompt. -/
theorem single_shot_direct_witness :
    (generateTokens decTotalLen (sessionFor 15 (mkRat 59 2)) [] none).result
        = Except.ok (decTotalLen none [] (pyInt (pyMul (sessionFor 15 (mkRat 59 2)).duration frame_rate))) ∧
      (generateTokens decTotalLen (sessionFor 15 (mkRat 59 2)) [] none).calls
        = [⟨none, [], pyInt (pyMul (sessionFor 15 (mkRat 59 2)).duration frame_rate), 0⟩] ∧
      (generateTokens decTotalLen (sessionFor 15 (mkRat 59 2)) [] none).tookChunkPath = false :=
  single_shot_direct decTotalLen (sessionFor 15 (mkRat 59 2)) [] none (by decide) rfl

/-- C8 (confirmed): `set_generation_params` fails with the configuration
assert exactly when `extend_stride >= max_duration`, before any generation
and leaving every session field unchanged; for `extend_stride <
max_duration` it succeeds and stores duration, stride and the sampling
parameters. -/
theorem set_generation_params_guard (s : Session) (u : Bool) (k : ℕ)
    (tp tmp d c : ℚ) (w : Bool) (es : ℚ) :
    (s.max_duration ≤ es →
      ((set_generation_params s u k tp tmp d c w es).1 = s ∧
        (set_generation_params s u k tp tmp d c w es).2 = some GenError.assertStride)) ∧
    (es < s.max_duration →
      ((set_generation_params s u k tp tmp d c w es).2 = none ∧
        (set_generation_params s u k tp tmp d c w es).1.extend_stride = es ∧
        (set_generation_params s u k tp tmp d c w es).1.duration = d ∧
        (set_generation_params s u k tp tmp d c w es).1.generation_params
          = ⟨u, tmp, k, tp, c, w⟩)) := by
  constructor
  · intro h
    rw [set_generation_params, if_pos h]
    exact ⟨rfl, rfl⟩
  · intro h
    rw [set_generation_params, if_neg (not_le.mpr h)]
    exact ⟨rfl, rfl, rfl, rfl⟩

/-- C8 witness: stride 31 on a 30-second session fails leaving the session
unchanged; stride 29.5 succeeds and stores the new parameters. -/
theorem set_generation_params_guard_witness :
    ((set_generation_params (sessionFor 15 (mkRat 59 2)) true 250 0 1 30 3 false 31).1
        = sessionFor 15 (mkRat 59 2) ∧
      (set_generation_params (sessionFor 15 (mkRat 59 2)) true 250 0 1 30 3 false 31).2
        = some GenError.assertStride) ∧
    ((set_generation_params (sessionFor 15 (mkRat 59 2)) true 250 0 1 30 3 false
        (mkRat 59 2)).2 = none ∧
      (set_generation_params (sessionFor 15 (mkRat 59 2)) true 250 0 1 30 3 false
        (mkRat 59 2)).1.extend_stride = mkRat 59 2 ∧
      (set_generation_params (sessionFor 15 (mkRat 59 2)) true 250 0 1 30 3 false
        (mkRat 59 2)).1.duration = 30 ∧
      (set_generation_params (sessionFor 15 (mkRat 59 2)) true 250 0 1 30 3 false
        (mkRat 59 2)).1.generation_params = ⟨true, 1, 250, 0, 3, false⟩) :=
  ⟨(set_generation_params_guard (sessionFor 15 (mkRat 59 2)) true 250 0 1 30 3 false 31).1
      (by decide),
    (set_generation_params_guard (sessionFor 15 (mkRat 59 2)) true 250 0 1 30 3 false
        (mkRat 59 2)).2 (by decide)⟩

/-- C9 (amended): a generation call leaves duration, extend_stride and the
sampling parameters unchanged, but it overwrites the session field
`max_duration` with 30 at entry, and on the extension path it creates or
overwrites the session attribute `fps` with 2. -/
theorem session_fields_after_generate (dec : Dec τ α) (s : Session)
    (attrs : List (AttrElem α)) (prompt : Option (List τ)) :
    (generateTokens dec s attrs prompt).session.duration = s.duration ∧
    (generateTokens dec s attrs prompt).session.extend_stride = s.extend_stride ∧
    (generateTokens dec s attrs prompt).session.generation_params = s.generation_params ∧
    (generateTokens dec s attrs prompt).session.max_duration = 30 ∧
    ((generateTokens dec s attrs prompt).session.fps = s.fps ∨
      (generateTokens dec s attrs prompt).session.fps = some 2) := by
  rw [generateTokens.eq_def]
  simp only []
  split_ifs <;> simp

/-- C9 (counterexample): a session constructed with `max_duration = 10`
holds `max_duration = 30` after a generation call: `_generate_tokens`
mutates this session-level configuration field. -/
theorem session_mutation_cex :
    (generateTokens decTotalLen (sessionMaxDur 5 (mkRat 59 2) 10) [] none).session.max_duration
        = 30 ∧
      (sessionMaxDur 5 (mkRat 59 2) 10).max_duration = 10 ∧ (30 : ℚ) ≠ 10 := by
  refine ⟨?_, rfl, by norm_num⟩
  rw [generateTokens_single decTotalLen (sessionMaxDur 5 (mkRat 59 2) 10) [] none rfl (by decide)]

/-- C5 (amended): the controller computes `stride_tokens` and
`stride_video_frames` with Python `int()`, i.e. truncation toward zero; for
nonnegative `extend_stride` these equal the floors of
`frame_rate * extend_stride` and `fps * extend_stride`, which differ from
the nearest integer whenever the fractional part exceeds one half. -/
theorem stride_rounding (es : ℚ) (h : 0 ≤ es) :
    strideTokens es = ⌊frame_rate * es⌋ ∧ strideVideoFrames es = ⌊fpsConst * es⌋ := by
  have h50 : (0 : ℚ) ≤ frame_rate := by
    rw [show frame_rate = (50 : ℚ) from rfl]; norm_num
  have h2 : (0 : ℚ) ≤ fpsConst := by
    rw [show fpsConst = (2 : ℚ) from rfl]; norm_num
  constructor
  · rw [strideTokens, pyMul_eq, pyInt_eq, if_pos (mul_nonneg h50 h)]
  · rw [strideVideoFrames, pyMul_eq, pyInt_eq, if_pos (mul_nonneg h2 h)]

/-- C5 witness at the default stride 29.5. -/
theorem stride_rounding_witness :
    strideTokens (mkRat 59 2) = ⌊frame_rate * mkRat 59 2⌋ ∧
      strideVideoFrames (mkRat 59 2) = ⌊fpsConst * mkRat 59 2⌋ :=
  stride_rounding (mkRat 59 2) (by decide)

/-- C5 (counterexample): with `extend_stride = 29.9` the code computes
`stride_video_frames = int(2 * 29.9) = 59`, yet the nearest integer to 59.8
is 60: `int()` truncates, it does not round to nearest. -/
theorem stride_rounding_cex :
    strideVideoFrames (mkRat 299 10) = 59 ∧
      |fpsConst * mkRat 299 10 - (60 : ℚ)| < |fpsConst * mkRat 299 10 - (59 : ℚ)| := by
  constructor
  · decide
  · have h : fpsConst * mkRat 299 10 = (299 : ℚ) / 5 := by
      rw [show fpsConst = (2 : ℚ) from rfl, mkRat_eq_div]
      norm_num
    rw [h, abs_of_nonpos (by norm_num), abs_of_nonneg (by norm_num)]
    norm_num

/-- C4 (confirmed): each iteration of the extension loop advances the local
video window as follows: when the frame count minus `stride_video_frames`
is strictly below `max_duration * fps = 60` it resets the window to its
last 60 frames (exactly 60 of them whenever at least 60 exist), otherwise
it drops the first `stride_video_frames` frames; a window of
`60 + stride_video_frames - 1` frames takes the reset branch. -/
theorem window_advance (dec : Dec τ α) (duration : ℚ) (S V : ℤ) (st : LoopState τ α)
    (frames : List α) (a1 : AttrElem α)
    (hattrs : st.attributes = [AttrElem.video frames, a1]) (hV : 0 ≤ V) :
    (chunkStep dec duration S V st).map (fun st' => st'.attributes)
        = Except.ok [AttrElem.video
            (if (frames.length : ℤ) - V < 60 then frames.drop (frames.length - 60)
             else frames.drop V.toNat), a1] ∧
      (60 ≤ frames.length → (frames.drop (frames.length - 60)).length = 60) ∧
      ((frames.length : ℤ) = 60 + V - 1 → (frames.length : ℤ) - V < 60) := by
  refine ⟨?_, ?_, ?_⟩
  · rw [chunkStep_video dec duration S V st frames a1 hattrs]
    rw [pyDrop_neg_sixty, pyDrop_of_nonneg hV]
    rfl
  · intro h
    rw [List.length_drop]
    omega
  · intro h
    omega

/-- C4 witness: stride of 3 video frames, a window of 60 + 3 - 1 = 62
frames, taking the reset branch. -/
theorem window_advance_witness :
    ((chunkStep decTotalLen 61 1475 3
          ⟨[], none, 0, [AttrElem.video (List.replicate 62 ()), AttrElem.record], 0, 0, []⟩).map
        (fun st' => st'.attributes)
        = Except.ok [AttrElem.video
            (if ((List.replicate 62 ()).length : ℤ) - 3 < 60 then
              (List.replicate 62 ()).drop ((List.replicate 62 ()).length - 60)
             else (List.replicate 62 ()).drop (3 : ℤ).toNat), AttrElem.record]) ∧
      (60 ≤ (List.replicate 62 ()).length →
        ((List.replicate 62 ()).drop ((List.replicate 62 ()).length - 60)).length = 60) ∧
      (((List.replicate 62 ()).length : ℤ) = 60 + 3 - 1 →
        ((List.replicate 62 ()).length : ℤ) - 3 < 60) :=
  window_advance decTotalLen 61 1475 3
    ⟨[], none, 0, [AttrElem.video (List.replicate 62 ()), AttrElem.record], 0, 0, []⟩
    (List.replicate 62 ()) AttrElem.record rfl (by norm_num)

/-- C3 (confirmed): each iteration of the extension loop appends
`gen_tokens` with its first prompt-length tokens removed when a prompt was
supplied to that decoder call (the whole of `gen_tokens` when the prompt
was None), re-seeds the prompt as `gen_tokens` with its first
`stride_tokens` tokens dropped, and sets `prompt_length` to the length of
the re-seeded prompt. -/
theorem chunk_append_reseed (dec : Dec τ α) (duration : ℚ) (S V : ℤ)
    (st : LoopState τ α) (frames : List α) (a1 : AttrElem α)
    (hattrs : st.attributes = [AttrElem.video frames, a1]) (hS : 0 ≤ S) :
    ∃ st', chunkStep dec duration S V st = Except.ok st' ∧
      st'.all_tokens = st.all_tokens ++
        [match st.prompt_tokens with
         | none => chunkGen dec duration st frames a1
         | some p => (chunkGen dec duration st frames a1).drop p.length] ∧
      st'.prompt_tokens = some ((chunkGen dec duration st frames a1).drop S.toNat) ∧
      st'.prompt_length = ((chunkGen dec duration st frames a1).drop S.toNat).length := by
  refine ⟨_, chunkStep_video dec duration S V st frames a1 hattrs, rfl, ?_, ?_⟩
  · simp only [pyDrop_of_nonneg hS]
  · simp only [pyDrop_of_nonneg hS]

/-- C7 (amended): with a continuation prompt supplied, a valid stride
configuration and the two-group video attributes, generation fails before
any decoder call precisely when the prompt exceeds the budget
`int(min(duration, max_duration) * frame_rate)`: the budget is capped by
the requested duration as well as by the decoder max context, not by the
max context alone. -/
theorem prompt_guard (dec : Dec τ α) (s : Session) (frames : List α) (a1 : AttrElem α)
    (p : List τ) (hes : s.extend_stride < 30) :
    failedBeforeAnyCall (generateTokens dec s [AttrElem.video frames, a1] (some p))
      ↔ pyInt (pyMul (min s.duration 30) frame_rate) < (p.length : ℤ) := by
  constructor
  · intro hfail
    by_contra hnot
    have hp : promptCheckFails (pyInt (pyMul (min s.duration 30) frame_rate))
        (some p) = false := by
      simp only [promptCheckFails, decide_eq_false_iff_not]
      exact hnot
    by_cases hd : s.duration ≤ 30
    · obtain ⟨hcalls, e, hres⟩ := hfail
      rw [generateTokens_single dec s _ _ hp hd] at hres
      simp at hres
    · exact chunk_no_precall_failure dec s frames a1 (some p) hp hd hes hfail
  · intro h
    have hp : promptCheckFails (pyInt (pyMul (min s.duration 30) frame_rate))
        (some p) = true := by
      simp only [promptCheckFails, decide_eq_true_eq]
      exact h
    rw [generateTokens_promptFail dec s _ _ hp]
    exact ⟨rfl, GenError.promptTooLong, rfl⟩

/-- C7 witness: at duration 60 the budget is 1500 tokens and a 1600-token
prompt fails before any decoder call. -/
theorem prompt_guard_witness :
    failedBeforeAnyCall (generateTokens decTotalLen (sessionFor 60 (mkRat 59 2))
        [AttrElem.video [], AttrElem.record] (some (List.replicate 1600 ()))) :=
  (prompt_guard decTotalLen (sessionFor 60 (mkRat 59 2)) [] AttrElem.record
      (List.replicate 1600 ()) (by decide)).mpr
    (by simp only [List.length_replicate]; decide)

/-- C7 (counterexample): at duration 10 a 600-token prompt fails before any
decoder call although it is well within the claimed budget of
`max_duration * frame_rate = 1500` tokens: the code compares against
`int(min(duration, max_duration) * frame_rate) = 500`. -/
theorem prompt_guard_cex :
    failedBeforeAnyCall (generateTokens decTotalLen (sessionFor 10 (mkRat 59 2))
        [AttrElem.video [], AttrElem.record] (some (List.replicate 600 ()))) ∧
      ((List.replicate 600 () : List Unit).length : ℤ) ≤ 30 * 50 := by
  constructor
  · rw [generateTokens_promptFail decTotalLen (sessionFor 10 (mkRat 59 2)) _ _
      (by simp only [promptCheckFails, List.length_replicate]; decide)]
    exact ⟨rfl, GenError.promptTooLong, rfl⟩
  · simp only [List.length_replicate]
    decide

/-- C10 (amended): whenever the duration exceeds the decoder max context
and the extension loop actually runs (the prompt, if any, is shorter than
`total_gen_len`), a generation whose attributes are a list of
`ConditioningAttributes` records — as built by `generate_unconditional` and
`generate_continuation` — fails before any decoder call, because the
extension loop asserts `len(attributes) == 2` and slices `attributes[0]` as
a 5-dimensional tensor; only in the degenerate case of a continuation
prompt already covering `total_gen_len` does the call instead return the
prompt unchanged without any decoder call. -/
theorem records_attrs_fail (dec : Dec τ α) (s : Session) (num : ℕ) (encoded : List τ)
    (hd : ¬ s.duration ≤ 30)
    (hplen : (encoded.length : ℤ) < pyInt (pyMul s.duration frame_rate)) :
    failedBeforeAnyCall (generate_unconditional dec s num) ∧
      failedBeforeAnyCall (generate_continuation dec s encoded num) := by
  have hT : (1500 : ℤ) ≤ pyInt (pyMul s.duration frame_rate) :=
    total_ge_1500 s.duration (not_le.mp hd)
  constructor
  · rw [generate_unconditional]
    by_cases hes : s.extend_stride < 30
    · rw [generateTokens_chunk dec s _ none rfl hd hes]
      simp only []
      obtain ⟨e, hstep⟩ := chunkStep_records dec s.duration (strideTokens s.extend_stride)
        (strideVideoFrames s.extend_stride)
        { all_tokens := initTokens none
          prompt_tokens := none
          prompt_length := promptLen (none : Option (List τ))
          attributes := List.replicate num AttrElem.record
          current_gen_offset := 0
          iters := 0
          calls := [] } num rfl
      rw [chunkLoop_fail dec s.duration (strideTokens s.extend_stride)
        (strideVideoFrames s.extend_stride) (pyInt (pyMul s.duration frame_rate))
        ((pyInt (pyMul s.duration frame_rate)).toNat + 1) _ e
        (by simp only [promptLen_none]; omega) hstep (by omega)]
      exact ⟨rfl, e, rfl⟩
    · rw [generateTokens_strideFail dec s _ none rfl hd hes]
      exact ⟨rfl, GenError.assertStride, rfl⟩
  · rw [generate_continuation]
    by_cases hpcheck : promptCheckFails (pyInt (pyMul (min s.duration 30) frame_rate))
        (some encoded) = true
    · rw [generateTokens_promptFail dec s _ _ hpcheck]
      exact ⟨rfl, GenError.promptTooLong, rfl⟩
    · by_cases hes : s.extend_stride < 30
      · rw [generateTokens_chunk dec s _ (some encoded)
          (eq_false_of_ne_true hpcheck) hd hes]
        simp only []
        obtain ⟨e, hstep⟩ := chunkStep_records dec s.duration (strideTokens s.extend_stride)
          (strideVideoFrames s.extend_stride)
          { all_tokens := initTokens (some encoded)
            prompt_tokens := some encoded
            prompt_length := promptLen (some encoded)
            attributes := List.replicate num AttrElem.record
            current_gen_offset := 0
            iters := 0
            calls := [] } num rfl
        rw [chunkLoop_fail dec s.duration (strideTokens s.extend_stride)
          (strideVideoFrames s.extend_stride) (pyInt (pyMul s.duration frame_rate))
          ((pyInt (pyMul s.duration frame_rate)).toNat + 1) _ e
          (by simp only [promptLen_some]; omega) hstep (by omega)]
        exact ⟨rfl, e, rfl⟩
      · rw [generateTokens_strideFail dec s _ (some encoded)
          (eq_false_of_ne_true hpcheck) hd hes]
        exact ⟨rfl, GenError.assertStride, rfl⟩

/-- C10 witness: duration 60, an unconditional batch of one and a 10-token
continuation prompt both fail with no decoder call. -/
theorem records_attrs_fail_witness :
    failedBeforeAnyCall (generate_unconditional decTotalLen (sessionFor 60 (mkRat 59 2)) 1) ∧
      failedBeforeAnyCall (generate_continuation decTotalLen (sessionFor 60 (mkRat 59 2))
        (List.replicate 10 ()) 1) :=
  records_attrs_fail decTotalLen (sessionFor 60 (mkRat 59 2)) 1 (List.replicate 10 ())
    (by decide) (by simp only [List.length_replicate]; decide)

/-- C10 (counterexample): with duration 30.01 s (exceeding the 30 s max
context) and a continuation prompt of exactly `total_gen_len = 1500`
tokens, `generate_continuation` succeeds and returns the prompt unchanged
with zero decoder calls: continuation beyond `max_duration` can succeed. -/
theorem records_attrs_fail_cex :
    (generate_continuation decTotalLen (sessionFor (mkRat 3001 100) (mkRat 59 2))
        (List.replicate 1500 ()) 1).result = Except.ok (List.replicate 1500 ()) ∧
      (generate_continuation decTotalLen (sessionFor (mkRat 3001 100) (mkRat 59 2))
        (List.replicate 1500 ()) 1).calls = [] ∧
      (30 : ℚ) < (sessionFor (mkRat 3001 100) (mkRat 59 2)).duration := by
  have hT : pyInt (pyMul (sessionFor (mkRat 3001 100) (mkRat 59 2)).duration frame_rate)
      = 1500 := by decide
  have hp : promptCheckFails
      (pyInt (pyMul (min (sessionFor (mkRat 3001 100) (mkRat 59 2)).duration 30) frame_rate))
      (some (List.replicate 1500 ())) = false := by
    simp only [promptCheckFails, List.length_replicate, decide_eq_false_iff_not]
    decide
  rw [generate_continuation,
    generateTokens_chunk decTotalLen _ _ _ hp (by decide) (by decide)]
  simp only []
  rw [chunkLoop_stop decTotalLen _ _ _ _ _ _
    (by simp only [promptLen_some, List.length_replicate, hT]; omega)]
  refine ⟨?_, rfl, by decide⟩
  simp only [initTokens, List.flatten_cons, List.flatten_nil, List.append_nil]

/-- C6 (amended): when duration exceeds the max context, the stride
configuration is valid and `stride_tokens ≥ 1`, the sequence of
`current_gen_offset` values across the loop iterations is exactly
`0, stride_tokens, 2 * stride_tokens, ...` — incremented by exactly
`stride_tokens` per iteration and strictly increasing — and the loop body
runs at most `ceil(total_gen_len / stride_tokens)` times (the ceiling
written as `(total_gen_len + stride_tokens - 1) / stride_tokens`). -/
theorem stride_monotone (dec : Dec τ α) (s : Session) (frames : List α) (a1 : AttrElem α)
    (prompt : Option (List τ))
    (hp : promptCheckFails (pyInt (pyMul (min s.duration 30) frame_rate)) prompt = false)
    (hd : ¬ s.duration ≤ 30) (hes : s.extend_stride < 30)
    (hS : 1 ≤ strideTokens s.extend_stride) :
    (generateTokens dec s [AttrElem.video frames, a1] prompt).calls.map
        (fun c => c.offsetAtCall)
      = (List.range (generateTokens dec s [AttrElem.video frames, a1] prompt).iters).map
          (fun k : ℕ => (k : ℤ) * strideTokens s.extend_stride) ∧
    List.Chain' (fun a b => a < b)
      ((generateTokens dec s [AttrElem.video frames, a1] prompt).calls.map
        (fun c => c.offsetAtCall)) ∧
    (generateTokens dec s [AttrElem.video frames, a1] prompt).iters
      ≤ ((pyInt (pyMul s.duration frame_rate)).toNat
          + (strideTokens s.extend_stride).toNat - 1)
        / (strideTokens s.extend_stride).toNat := by
  have hT15 : (1500 : ℤ) ≤ pyInt (pyMul s.duration frame_rate) :=
    total_ge_1500 s.duration (not_le.mp hd)
  rw [generateTokens_chunk dec s _ prompt hp hd hes]
  simp only []
  have hoff := chunkLoop_offsets dec s.duration (strideTokens s.extend_stride)
    (strideVideoFrames s.extend_stride) (pyInt (pyMul s.duration frame_rate)) hS
    ((pyInt (pyMul s.duration frame_rate)).toNat + 1)
    { all_tokens := initTokens prompt
      prompt_tokens := prompt
      prompt_length := promptLen prompt
      attributes := [AttrElem.video frames, a1]
      current_gen_offset := 0
      iters := 0
      calls := [] } frames a1 rfl (by simp) rfl (by simp only []; omega)
  refine ⟨hoff.2.2.1, ?_, ?_⟩
  · rw [hoff.2.2.1]
    refine List.Pairwise.chain' ?_
    refine List.Pairwise.map _ ?_ (List.pairwise_lt_range _)
    intro a b hab
    refine mul_lt_mul_of_pos_right ?_ (by omega)
    exact_mod_cast hab
  · have hSpos : 0 < (strideTokens s.extend_stride).toNat := by omega
    have hSnat : (((strideTokens s.extend_stride).toNat : ℕ) : ℤ)
        = strideTokens s.extend_stride := Int.toNat_of_nonneg (by omega)
    have hTnat : (((pyInt (pyMul s.duration frame_rate)).toNat : ℕ) : ℤ)
        = pyInt (pyMul s.duration frame_rate) := Int.toNat_of_nonneg (by omega)
    rcases hoff.2.2.2 with h0 | hlt
    · rw [h0]
      exact Nat.zero_le _
    · refine (Nat.le_div_iff_mul_le hSpos).mpr ?_
      have h2 : ((chunkLoop dec s.duration (strideTokens s.extend_stride)
            (strideVideoFrames s.extend_stride) (pyInt (pyMul s.duration frame_rate))
            ((pyInt (pyMul s.duration frame_rate)).toNat + 1)
            { all_tokens := initTokens prompt
              prompt_tokens := prompt
              prompt_length := promptLen prompt
              attributes := [AttrElem.video frames, a1]
              current_gen_offset := 0
              iters := 0
              calls := [] }).1.iters : ℤ) * strideTokens s.extend_stride
          < pyInt (pyMul s.duration frame_rate) + strideTokens s.extend_stride := by
        nlinarith [hlt]
      zify [show 1 ≤ (pyInt (pyMul s.duration frame_rate)).toNat
          + (strideTokens s.extend_stride).toNat from by omega]
      rw [hSnat, hTnat]
      omega

/-- C6 witness: duration 31 with the default stride. -/
theorem stride_monotone_witness :
    (generateTokens decTotalLen (sessionFor 31 (mkRat 59 2))
        [AttrElem.video [], AttrElem.record] none).calls.map (fun c => c.offsetAtCall)
      = (List.range (generateTokens decTotalLen (sessionFor 31 (mkRat 59 2))
          [AttrElem.video [], AttrElem.record] none).iters).map
          (fun k : ℕ => (k : ℤ) * strideTokens (sessionFor 31 (mkRat 59 2)).extend_stride) ∧
    List.Chain' (fun a b => a < b)
      ((generateTokens decTotalLen (sessionFor 31 (mkRat 59 2))
        [AttrElem.video [], AttrElem.record] none).calls.map (fun c => c.offsetAtCall)) ∧
    (generateTokens decTotalLen (sessionFor 31 (mkRat 59 2))
        [AttrElem.video [], AttrElem.record] none).iters
      ≤ ((pyInt (pyMul (sessionFor 31 (mkRat 59 2)).duration frame_rate)).toNat
          + (strideTokens (sessionFor 31 (mkRat 59 2)).extend_stride).toNat - 1)
        / (strideTokens (sessionFor 31 (mkRat 59 2)).extend_stride).toNat :=
  stride_monotone decTotalLen (sessionFor 31 (mkRat 59 2)) [] AttrElem.record none
    rfl (by decide) (by decide) (by decide)

/-- C1 (amended): for every duration that is an integer multiple of
1/frame_rate, assuming the decoder returns exactly `max_gen_len` tokens per
call (the supplied prompt counted within them, as the audiocraft LM does —
not `max_gen_len` plus the prompt length as the spec words the contract),
a generation with the [local, global] attribute pair, a prompt within the
budget and `stride_tokens ≥ 1` succeeds and returns a token sequence of
time length exactly `duration * frame_rate = total_gen_len`. -/
theorem generate_length_exact (dec : Dec τ α) (s : Session) (n : ℕ)
    (frames : List α) (a1 : AttrElem α) (prompt : Option (List τ))
    (hdec : totalLenContract dec)
    (hdur : s.duration * frame_rate = (n : ℚ))
    (hp : promptCheckFails (pyInt (pyMul (min s.duration 30) frame_rate)) prompt = false)
    (hes : s.extend_stride < 30)
    (hS : 1 ≤ strideTokens s.extend_stride) :
    resultLength (generateTokens dec s [AttrElem.video frames, a1] prompt) = some n := by
  have hT : pyInt (pyMul s.duration frame_rate) = (n : ℤ) := by
    rw [pyMul_eq, hdur, pyInt_natCast]
  by_cases hd : s.duration ≤ 30
  · rw [generateTokens_single dec s _ prompt hp hd]
    simp only [resultLength]
    rw [hdec, hT]
    simp
  · have hd30 : (30 : ℚ) < s.duration := not_le.mp hd
    have hn1500 : 1500 < (n : ℤ) := by
      have h1 : (1500 : ℚ) < (n : ℚ) := by
        rw [← hdur, show frame_rate = (50 : ℚ) from rfl]
        linarith
      exact_mod_cast h1
    have hple : (promptLen prompt : ℤ) ≤ 1500 := by
      rw [budget_eq_1500 s.duration (le_of_lt hd30)] at hp
      cases prompt with
      | none => simp
      | some p =>
        simp only [promptCheckFails, decide_eq_false_iff_not, not_lt] at hp
        simpa using hp
    rw [generateTokens_chunk dec s _ prompt hp hd hes]
    simp only [hT]
    have hdur' : s.duration * frame_rate = (((n : ℤ)) : ℚ) := by
      rw [hdur]
      norm_num
    have hloop := chunkLoop_length dec hdec s.duration (strideTokens s.extend_stride)
      (strideVideoFrames s.extend_stride) (n : ℤ) hdur' hS
      (strideTokens_lt_1500 hes hS) ((n : ℤ).toNat + 1)
      { all_tokens := initTokens prompt
        prompt_tokens := prompt
        prompt_length := promptLen prompt
        attributes := [AttrElem.video frames, a1]
        current_gen_offset := 0
        iters := 0
        calls := [] } frames a1 rfl rfl (by norm_num)
      (by
        intro hlt
        refine ⟨?_, hple⟩
        cases prompt <;> simp [initTokens, sumLens])
      (by
        intro hge
        simp only [] at hge
        omega)
      (by simp only []; omega)
    simp only [resultLength, hloop.1]
    have hlen := hloop.2
    rw [List.length_flatten]
    have : ((chunkLoop dec s.duration (strideTokens s.extend_stride)
        (strideVideoFrames s.extend_stride) ((n : ℤ)) ((n : ℤ).toNat + 1)
        { all_tokens := initTokens prompt
          prompt_tokens := prompt
          prompt_length := promptLen prompt
          attributes := [AttrElem.video frames, a1]
          current_gen_offset := 0
          iters := 0
          calls := [] }).1.all_tokens.map List.length).sum = n := by
      have h2 : (sumLens (chunkLoop dec s.duration (strideTokens s.extend_stride)
          (strideVideoFrames s.extend_stride) ((n : ℤ)) ((n : ℤ).toNat + 1)
          { all_tokens := initTokens prompt
            prompt_tokens := prompt
            prompt_length := promptLen prompt
            attributes := [AttrElem.video frames, a1]
            current_gen_offset := 0
            iters := 0
            calls := [] }).1.all_tokens : ℤ) = (n : ℤ) := hlen
      rw [sumLens] at h2
      exact_mod_cast h2
    rw [this]

/-- C1 witness: duration 60, stride 29.5, no prompt: exactly
60 * 50 = 3000 tokens come back. -/
theorem generate_length_exact_witness :
    resultLength (generateTokens decTotalLen (sessionFor 60 (mkRat 59 2))
        [AttrElem.video [], AttrElem.record] none) = some 3000 :=
  generate_length_exact decTotalLen (sessionFor 60 (mkRat 59 2)) 3000 [] AttrElem.record
    none (by intro p a L; simp [decTotalLen])
    (by simp [sessionFor, frame_rate]; norm_num) rfl (by decide) (by decide)

/-- C3 witness: a two-token prompt and stride 1, on a concrete state. -/
theorem chunk_append_reseed_witness :
    ∃ st', chunkStep decSpecLen 61 1 0
          ⟨[[()]], some [(), ()], 2, [AttrElem.video [], AttrElem.record], 5, 1, []⟩
        = Except.ok st' ∧
      st'.all_tokens = [[()]] ++
        [match some [(), ()] with
         | none => chunkGen decSpecLen 61
            ⟨[[()]], some [(), ()], 2, [AttrElem.video [], AttrElem.record], 5, 1, []⟩
            [] AttrElem.record
         | some p => (chunkGen decSpecLen 61
            ⟨[[()]], some [(), ()], 2, [AttrElem.video [], AttrElem.record], 5, 1, []⟩
            [] AttrElem.record).drop p.length] ∧
      st'.prompt_tokens = some ((chunkGen decSpecLen 61
          ⟨[[()]], some [(), ()], 2, [AttrElem.video [], AttrElem.record], 5, 1, []⟩
          [] AttrElem.record).drop (1 : ℤ).toNat) ∧
      st'.prompt_length = ((chunkGen decSpecLen 61
          ⟨[[()]], some [(), ()], 2, [AttrElem.video [], AttrElem.record], 5, 1, []⟩
          [] AttrElem.record).drop (1 : ℤ).toNat).length :=
  chunk_append_reseed decSpecLen 61 1 0
    ⟨[[()]], some [(), ()], 2, [AttrElem.video [], AttrElem.record], 5, 1, []⟩
    [] AttrElem.record rfl (by norm_num)

/-- First iteration of the 61-second spec-contract run. -/
theorem chunkStep_d61_one : chunkStep decSpecLen 61 1475 59
    ⟨[], none, 0, [AttrElem.video [], AttrElem.record], 0, 0, []⟩
  = Except.ok ⟨[List.replicate 1500 ()], some (List.replicate 25 ()), 25,
      [AttrElem.video [], AttrElem.record], 1475, 1,
      [⟨none, [AttrElem.video [], AttrElem.record], 1500, 0⟩]⟩ := by
  rw [chunkStep_video decSpecLen 61 1475 59 _ [] AttrElem.record rfl]
  have hg : chunkGen decSpecLen 61
      ⟨[], none, 0, [AttrElem.video [], AttrElem.record], 0, 0, []⟩ [] AttrElem.record
      = List.replicate 1500 () := by
    rw [chunkGen]
    rw [show pyInt (pyMul (chunkDuration 61 (0:ℤ)) frame_rate) = 1500 from by decide]
    simp [decSpecLen, promptLen]
  simp only [hg, pyDrop_of_nonneg (by norm_num : (0:ℤ) ≤ 1475), List.drop_replicate]
  norm_num
  simp [pyDrop_nil, pyTake_nil]
  rw [show pyInt (pyMul (chunkDuration 61 (0:ℤ)) frame_rate) = 1500 from by decide]

/-- Second iteration of the 61-second spec-contract run. -/
theorem chunkStep_d61_two : chunkStep decSpecLen 61 1475 59
    ⟨[List.replicate 1500 ()], some (List.replicate 25 ()), 25,
      [AttrElem.video [], AttrElem.record], 1475, 1,
      [⟨none, [AttrElem.video [], AttrElem.record], 1500, 0⟩]⟩
  = Except.ok ⟨[List.replicate 1500 (), List.replicate 1500 ()], some (List.replicate 50 ()), 50,
      [AttrElem.video [], AttrElem.record], 2950, 2,
      [⟨none, [AttrElem.video [], AttrElem.record], 1500, 0⟩,
       ⟨some (List.replicate 25 ()), [AttrElem.video [], AttrElem.record], 1500, 1475⟩]⟩ := by
  rw [chunkStep_video decSpecLen 61 1475 59 _ [] AttrElem.record rfl]
  have hg : chunkGen decSpecLen 61
      ⟨[List.replicate 1500 ()], some (List.replicate 25 ()), 25,
        [AttrElem.video [], AttrElem.record], 1475, 1,
        [⟨none, [AttrElem.video [], AttrElem.record], 1500, 0⟩]⟩ [] AttrElem.record
      = List.replicate 1525 () := by
    rw [chunkGen]
    rw [show pyInt (pyMul (chunkDuration 61 (1475:ℤ)) frame_rate) = 1500 from by decide]
    simp [decSpecLen, promptLen]
  simp only [hg, pyDrop_of_nonneg (by norm_num : (0:ℤ) ≤ 1475), List.drop_replicate]
  norm_num
  simp [pyDrop_nil, pyTake_nil]
  rw [show pyInt (pyMul (chunkDuration 61 (1475:ℤ)) frame_rate) = 1500 from by decide]

/-- Third iteration of the 61-second spec-contract run. -/
theorem chunkStep_d61_three : chunkStep decSpecLen 61 1475 59
    ⟨[List.replicate 1500 (), List.replicate 1500 ()], some (List.replicate 50 ()), 50,
      [AttrElem.video [], AttrElem.record], 2950, 2,
      [⟨none, [AttrElem.video [], AttrElem.record], 1500, 0⟩,
       ⟨some (List.replicate 25 ()), [AttrElem.video [], AttrElem.record], 1500, 1475⟩]⟩
  = Except.ok ⟨[List.replicate 1500 (), List.replicate 1500 (), List.replicate 100 ()],
      some [], 0,
      [AttrElem.video [], AttrElem.record], 4425, 3,
      [⟨none, [AttrElem.video [], AttrElem.record], 1500, 0⟩,
       ⟨some (List.replicate 25 ()), [AttrElem.video [], AttrElem.record], 1500, 1475⟩,
       ⟨some (List.replicate 50 ()), [AttrElem.video [], AttrElem.record], 100, 2950⟩]⟩ := by
  rw [chunkStep_video decSpecLen 61 1475 59 _ [] AttrElem.record rfl]
  have hg : chunkGen decSpecLen 61
      ⟨[List.replicate 1500 (), List.replicate 1500 ()], some (List.replicate 50 ()), 50,
        [AttrElem.video [], AttrElem.record], 2950, 2,
        [⟨none, [AttrElem.video [], AttrElem.record], 1500, 0⟩,
         ⟨some (List.replicate 25 ()), [AttrElem.video [], AttrElem.record], 1500, 1475⟩]⟩
      [] AttrElem.record
      = List.replicate 150 () := by
    rw [chunkGen]
    rw [show pyInt (pyMul (chunkDuration 61 (2950:ℤ)) frame_rate) = 100 from by decide]
    simp [decSpecLen, promptLen]
  simp only [hg, pyDrop_of_nonneg (by norm_num : (0:ℤ) ≤ 1475), List.drop_replicate]
  norm_num
  simp [pyDrop_nil, pyTake_nil]
  rw [show pyInt (pyMul (chunkDuration 61 (2950:ℤ)) frame_rate) = 100 from by decide]

/-- C1 (counterexample): under the decoder length contract exactly as the
spec states it (`max_gen_len` plus prompt-length tokens per call), a
61-second generation at the default 29.5-second stride returns 3100 tokens,
not `total_gen_len = int(61 * 50) = 3050`: the suffix appended by the final
truncated chunk retains the re-seeded prompt surplus. -/
theorem generate_length_spec_contract_cex :
    specLenContract decSpecLen ∧
      resultLength (generateTokens decSpecLen (sessionFor 61 (mkRat 59 2))
          [AttrElem.video [], AttrElem.record] none) = some 3100 ∧
      pyInt (pyMul (sessionFor 61 (mkRat 59 2)).duration frame_rate) = 3050 := by
  refine ⟨?_, ?_, by decide⟩
  · intro p a L
    simp [decSpecLen, specLenContract, promptLen]
  · rw [generateTokens_chunk decSpecLen _ _ none rfl (by decide) (by decide)]
    simp only [initTokens, promptLen_none]
    rw [show strideTokens (sessionFor 61 (mkRat 59 2)).extend_stride = 1475 from by decide,
      show strideVideoFrames (sessionFor 61 (mkRat 59 2)).extend_stride = 59 from by decide,
      show pyInt (pyMul (sessionFor 61 (mkRat 59 2)).duration frame_rate) = 3050 from by decide,
      show (sessionFor 61 (mkRat 59 2)).duration = 61 from rfl,
      show ((3050:ℤ)).toNat + 1 = 3051 from by decide]
    rw [chunkLoop_cont decSpecLen 61 1475 59 3050 3051 _ _ (by norm_num) chunkStep_d61_one (by norm_num),
      show (3051:ℕ) - 1 = 3050 from by norm_num]
    rw [chunkLoop_cont decSpecLen 61 1475 59 3050 3050 _ _ (by norm_num) chunkStep_d61_two (by norm_num),
      show (3050:ℕ) - 1 = 3049 from by norm_num]
    rw [chunkLoop_cont decSpecLen 61 1475 59 3050 3049 _ _ (by norm_num) chunkStep_d61_three (by norm_num),
      show (3049:ℕ) - 1 = 3048 from by norm_num]
    rw [chunkLoop_stop decSpecLen 61 1475 59 3050 3048 _ (by norm_num)]
    simp only [resultLength, List.length_flatten, List.map_cons, List.map_nil,
      List.length_replicate, List.sum_cons, List.sum_nil]
    norm_num

/-- First iteration of the 31-second zero-stride run. -/
theorem chunkStep_d31_one : chunkStep decSpecLen 31 0 0
    ⟨[], none, 0, [AttrElem.video [], AttrElem.record], 0, 0, []⟩
  = Except.ok ⟨[List.replicate 1500 ()], some (List.replicate 1500 ()), 1500,
      [AttrElem.video [], AttrElem.record], 0, 1,
      [⟨none, [AttrElem.video [], AttrElem.record], 1500, 0⟩]⟩ := by
  rw [chunkStep_video decSpecLen 31 0 0 _ [] AttrElem.record rfl]
  have hg : chunkGen decSpecLen 31
      ⟨[], none, 0, [AttrElem.video [], AttrElem.record], 0, 0, []⟩ [] AttrElem.record
      = List.replicate 1500 () := by
    rw [chunkGen]
    rw [show pyInt (pyMul (chunkDuration 31 (0:ℤ)) frame_rate) = 1500 from by decide]
    simp [decSpecLen, promptLen]
  simp only [hg, pyDrop_of_nonneg (by norm_num : (0:ℤ) ≤ 0), List.drop_replicate]
  norm_num
  simp [pyDrop_nil, pyTake_nil]
  rw [show pyInt (pyMul (chunkDuration 31 (0:ℤ)) frame_rate) = 1500 from by decide]

/-- Second iteration of the 31-second zero-stride run. -/
theorem chunkStep_d31_two : chunkStep decSpecLen 31 0 0
    ⟨[List.replicate 1500 ()], some (List.replicate 1500 ()), 1500,
      [AttrElem.video [], AttrElem.record], 0, 1,
      [⟨none, [AttrElem.video [], AttrElem.record], 1500, 0⟩]⟩
  = Except.ok ⟨[List.replicate 1500 (), List.replicate 1500 ()], some (List.replicate 3000 ()), 3000,
      [AttrElem.video [], AttrElem.record], 0, 2,
      [⟨none, [AttrElem.video [], AttrElem.record], 1500, 0⟩,
       ⟨some (List.replicate 1500 ()), [AttrElem.video [], AttrElem.record], 1500, 0⟩]⟩ := by
  rw [chunkStep_video decSpecLen 31 0 0 _ [] AttrElem.record rfl]
  have hg : chunkGen decSpecLen 31
      ⟨[List.replicate 1500 ()], some (List.replicate 1500 ()), 1500,
        [AttrElem.video [], AttrElem.record], 0, 1,
        [⟨none, [AttrElem.video [], AttrElem.record], 1500, 0⟩]⟩ [] AttrElem.record
      = List.replicate 3000 () := by
    rw [chunkGen]
    rw [show pyInt (pyMul (chunkDuration 31 (0:ℤ)) frame_rate) = 1500 from by decide]
    simp only [decSpecLen, promptLen_some, List.length_replicate]
    congr 1
  simp only [hg, pyDrop_of_nonneg (by norm_num : (0:ℤ) ≤ 0), List.drop_replicate]
  norm_num
  simp [pyDrop_nil, pyTake_nil]
  rw [show pyInt (pyMul (chunkDuration 31 (0:ℤ)) frame_rate) = 1500 from by decide]

/-- C6 (counterexample): `extend_stride = 0` satisfies
`extend_stride < max_duration`, yet with it `stride_tokens = 0` and two
consecutive loop iterations issue their decoder calls at the same
`current_gen_offset = 0`: the offsets are not strictly increasing. -/
theorem stride_monotone_cex :
    specLenContract decSpecLen ∧
    (generateTokens decSpecLen (sessionFor 31 0)
        [AttrElem.video [], AttrElem.record] none).calls.map (fun c => c.offsetAtCall)
      = [0, 0] ∧
    ¬ List.Chain' (fun a b : ℤ => a < b) [(0 : ℤ), 0] ∧
    (sessionFor 31 0).extend_stride < 30 ∧ (30 : ℚ) < (sessionFor 31 0).duration := by
  refine ⟨?_, ?_, by simp [List.chain'_cons], by decide, by decide⟩
  · intro p a L
    simp [decSpecLen, specLenContract, promptLen]
  · rw [generateTokens_chunk decSpecLen _ _ none rfl (by decide) (by decide)]
    simp only [initTokens, promptLen_none]
    rw [show strideTokens (sessionFor 31 0).extend_stride = 0 from by decide,
      show strideVideoFrames (sessionFor 31 0).extend_stride = 0 from by decide,
      show pyInt (pyMul (sessionFor 31 0).duration frame_rate) = 1550 from by decide,
      show (sessionFor 31 0).duration = 31 from rfl,
      show ((1550:ℤ)).toNat + 1 = 1551 from by decide]
    rw [chunkLoop_cont decSpecLen 31 0 0 1550 1551 _ _ (by norm_num) chunkStep_d31_one (by norm_num),
      show (1551:ℕ) - 1 = 1550 from by norm_num]
    rw [chunkLoop_cont decSpecLen 31 0 0 1550 1550 _ _ (by norm_num) chunkStep_d31_two (by norm_num),
      show (1550:ℕ) - 1 = 1549 from by norm_num]
    rw [chunkLoop_stop decSpecLen 31 0 0 1550 1549 _ (by norm_num)]
    simp only [List.map_cons, List.map_nil]

end VidMuse
